import Mathlib

/-!
Verification of the risk-analysis core of the self-healing supply chain
pipeline. Python floats are modelled as exact rationals (ℚ); all the
quantities compared by the claims sit far from any binary-representation
boundary, so the rational model is faithful for them. Python `round(x, n)`
(round half to even) is modelled by `roundHalfEven`; Python `int(x)`
(truncation toward zero) by `pyInt`. Python string truthiness (None or ""
is falsy) is modelled by `strFalsy` / `pyOrS`.
-/

namespace SupplyChain

/-- Truncation toward zero, the behaviour of Python `int()` on a float. -/
def pyInt (q : ℚ) : ℤ := if 0 ≤ q then ⌊q⌋ else ⌈q⌉

/-- Round to the nearest integer, ties to even: the behaviour of Python
`round()`. -/
def roundHalfEven (q : ℚ) : ℤ :=
  let n := ⌊q⌋
  let f := q - n
  if f < 1/2 then n
  else if 1/2 < f then n + 1
  else if n % 2 = 0 then n else n + 1

/-- Python `round(q, 3)`. -/
def round3 (q : ℚ) : ℚ := (roundHalfEven (q * 1000) : ℚ) / 1000

/-- Python `round(q, 2)`. -/
def round2 (q : ℚ) : ℚ := (roundHalfEven (q * 100) : ℚ) / 100

/-- Python `round(q, 1)`. -/
def round1 (q : ℚ) : ℚ := (roundHalfEven (q * 10) : ℚ) / 10

/-- Truthiness test of an optional Python string: `None` and `""` are falsy. -/
def strFalsy : Option String → Bool
  | none => true
  | some s => s = ""

/-- Python `s or d` for strings: `d` when `s` is empty. -/
def pyOrS (s d : String) : String := if s = "" then d else s

/-- Python `x or d` where `x` is an optional string (`None` or a string). -/
def pyOrOpt (o : Option String) (d : String) : String :=
  match o with
  | none => d
  | some s => pyOrS s d

/-- Python `min(max(x, 0.0), 1.0)`, the clamp used by `Risk.__init__`. -/
def clamp01 (q : ℚ) : ℚ := min (max q 0) 1

/-- Python `s.lower()`: lower-case each character (all the strings compared
by this code are ASCII). -/
def strLower (s : String) : String := String.mk (s.data.map Char.toLower)

/-! ### Enumerations (models/supplier.py, models/risk.py, core/alert_generator.py) -/

/-- Model of `SupplierCriticality` enum from models/supplier.py. -/
inductive SupplierCriticality
  | low
  | medium
  | high
  | critical
deriving DecidableEq

/-- The `.value` string of a `SupplierCriticality` member. -/
def SupplierCriticality.value : SupplierCriticality → String
  | .low => "low"
  | .medium => "medium"
  | .high => "high"
  | .critical => "critical"

/-- Model of `SupplierCriticality(value)` enum lookup; `none` models the `ValueError`. -/
def SupplierCriticality.ofValue (s : String) : Option SupplierCriticality :=
  if s = "low" then some .low
  else if s = "medium" then some .medium
  else if s = "high" then some .high
  else if s = "critical" then some .critical
  else none

/-- Model of `SupplierTier` enum from models/supplier.py. -/
inductive SupplierTier
  | tier1
  | tier2
  | tier3
deriving DecidableEq

/-- The `.value` string of a `SupplierTier` member. -/
def SupplierTier.value : SupplierTier → String
  | .tier1 => "tier_1"
  | .tier2 => "tier_2"
  | .tier3 => "tier_3"

/-- Model of `SupplierTier(value)` enum lookup; `none` models the `ValueError`. -/
def SupplierTier.ofValue (s : String) : Option SupplierTier :=
  if s = "tier_1" then some .tier1
  else if s = "tier_2" then some .tier2
  else if s = "tier_3" then some .tier3
  else none

/-- Model of `RiskLevel` enum from models/risk.py. -/
inductive RiskLevel
  | low
  | medium
  | high
  | critical
deriving DecidableEq

/-- The `.value` string of a `RiskLevel` member. -/
def RiskLevel.value : RiskLevel → String
  | .low => "low"
  | .medium => "medium"
  | .high => "high"
  | .critical => "critical"

/-- Model of `RiskLevel(value)` enum lookup; `none` models the `ValueError`. -/
def RiskLevel.ofValue (s : String) : Option RiskLevel :=
  if s = "low" then some .low
  else if s = "medium" then some .medium
  else if s = "high" then some .high
  else if s = "critical" then some .critical
  else none

/-- Model of `RiskLevel.from_score` from models/risk.py. -/
def RiskLevel.from_score (score : ℚ) : RiskLevel :=
  if score ≥ 0.8 then .critical
  else if score ≥ 0.6 then .high
  else if score ≥ 0.4 then .medium
  else .low

/-- Model of `RiskType` enum from models/risk.py. -/
inductive RiskType
  | supply
  | logistics
  | financial
  | operational
  | quality
  | geopolitical
deriving DecidableEq

/-- The `.value` string of a `RiskType` member. -/
def RiskType.value : RiskType → String
  | .supply => "supply"
  | .logistics => "logistics"
  | .financial => "financial"
  | .operational => "operational"
  | .quality => "quality"
  | .geopolitical => "geopolitical"

/-- Model of `RiskType(value)` enum lookup; `none` models the `ValueError`. -/
def RiskType.ofValue (s : String) : Option RiskType :=
  if s = "supply" then some .supply
  else if s = "logistics" then some .logistics
  else if s = "financial" then some .financial
  else if s = "operational" then some .operational
  else if s = "quality" then some .quality
  else if s = "geopolitical" then some .geopolitical
  else none

/-- Model of `MitigationUrgency` enum from models/risk.py. -/
inductive MitigationUrgency
  | immediate
  | shortTerm
  | mediumTerm
  | longTerm
deriving DecidableEq

/-- The `.value` string of a `MitigationUrgency` member. -/
def MitigationUrgency.value : MitigationUrgency → String
  | .immediate => "immediate"
  | .shortTerm => "short_term"
  | .mediumTerm => "medium_term"
  | .longTerm => "long_term"

/-- Model of `MitigationUrgency(value)` enum lookup; `none` models the `ValueError`. -/
def MitigationUrgency.ofValue (s : String) : Option MitigationUrgency :=
  if s = "immediate" then some .immediate
  else if s = "short_term" then some .shortTerm
  else if s = "medium_term" then some .mediumTerm
  else if s = "long_term" then some .longTerm
  else none

/-- Model of `AlertPriority` enum from core/alert_generator.py. -/
inductive AlertPriority
  | P1
  | P2
  | P3
  | P4
deriving DecidableEq

/-- Model of `AlertChannel` enum from core/alert_generator.py. -/
inductive AlertChannel
  | dashboard
  | email
  | sms
  | slack
deriving DecidableEq

/-! ### Supplier (models/supplier.py) -/

/-- A constructed `Supplier` object (models/supplier.py). `city`, `region`
and the coordinates are `Option` because the Python attributes default to
`None`. -/
structure Supplier where
  supplier_id : String
  name : String
  country : String
  city : Option String
  region : Option String
  latitude : Option ℚ
  longitude : Option ℚ
  criticality : SupplierCriticality
  tier : SupplierTier
  categories : List String
  lead_time_days : ℤ
  annual_spend : ℚ
deriving DecidableEq

/-- Model of `Supplier.is_in_country`. -/
def Supplier.is_in_country (s : Supplier) (country : String) : Bool :=
  if country = "" then false else strLower s.country == strLower country

/-- Model of `Supplier.is_in_region`. -/
def Supplier.is_in_region (s : Supplier) (region : String) : Bool :=
  match s.region with
  | none => false
  | some r => if region = "" then false else strLower r == strLower region

/-- Model of `Supplier.is_in_city`. -/
def Supplier.is_in_city (s : Supplier) (city : String) : Bool :=
  match s.city with
  | none => false
  | some c => if city = "" then false else strLower c == strLower city

/-! ### Event (normalized event mapping consumed by the risk-analysis engines).
Fields read through `event.get(key, default)` are `Option` with the default
applied at each use site, exactly as in the Python code. -/

/-- The `location` sub-mapping of an event. -/
structure Location where
  country : Option String
  region : Option String
  city : Option String
deriving DecidableEq

/-- A normalized event record as consumed by the risk-analysis engines. -/
structure Event where
  severity : Option String
  confidence : Option ℚ
  impact_score : Option ℚ
  location : Location
  keywords : List String
deriving DecidableEq

/-! ### Risk (models/risk.py) -/

/-- A constructed `Risk` object. `created_at` is modelled by its ISO string. -/
structure Risk where
  risk_id : String
  source_event_id : String
  title : String
  description : String
  risk_score : ℚ
  risk_level : RiskLevel
  risk_type : RiskType
  affected_suppliers : List Supplier
  geographic_scope : Option String
  mitigation_urgency : MitigationUrgency
  estimated_financial_impact : ℚ
  estimated_delay_days : ℤ
  confidence : ℚ
  created_at : String
deriving DecidableEq

/-- Model of `Risk.__init__` (models/risk.py lines 62-111). `fresh` models the
`str(uuid.uuid4())` fallback and `now` the `datetime.now()` fallback; the
score and confidence are clamped to [0,1] exactly as in the source. -/
def mkRisk (fresh now : String)
    (source_event_id title description : String)
    (risk_score : ℚ) (risk_level : RiskLevel) (risk_type : RiskType)
    (affected_suppliers : Option (List Supplier))
    (geographic_scope : Option String)
    (mitigation_urgency : MitigationUrgency)
    (estimated_financial_impact : ℚ) (estimated_delay_days : ℤ)
    (confidence : ℚ) (risk_id : Option String)
    (created_at : Option String) : Risk :=
  { risk_id := pyOrOpt risk_id fresh
    source_event_id := source_event_id
    title := title
    description := description
    risk_score := clamp01 risk_score
    risk_level := risk_level
    risk_type := risk_type
    affected_suppliers := (affected_suppliers.getD []) -- `affected_suppliers or []`
    geographic_scope := geographic_scope
    mitigation_urgency := mitigation_urgency
    estimated_financial_impact := estimated_financial_impact
    estimated_delay_days := estimated_delay_days
    confidence := clamp01 confidence
    created_at := pyOrOpt created_at now }

/-- Model of `Risk.has_critical_suppliers` property. -/
def Risk.has_critical_suppliers (r : Risk) : Bool :=
  r.affected_suppliers.any (fun s => s.criticality == SupplierCriticality.critical)

/-- Model of `Risk.total_affected_spend` property. -/
def Risk.total_affected_spend (r : Risk) : ℚ :=
  (r.affected_suppliers.map Supplier.annual_spend).sum

/-! ### Risk Scorer (engines/risk_scorer.py) -/

/-- Model of `RiskScorer._severity_values.get(severity, 0.5)`. -/
def severityValue (s : String) : ℚ :=
  if s = "critical" then 1
  else if s = "high" then 0.75
  else if s = "medium" then 0.5
  else if s = "low" then 0.25
  else 0.5

/-- Model of `RiskScorer._criticality_values` lookup (total on the enum, so the
`.get` default 0.5 is unreachable). -/
def criticalityValue : SupplierCriticality → ℚ
  | .critical => 1
  | .high => 0.75
  | .medium => 0.5
  | .low => 0.25

/-- Model of `RiskScorer._calculate_severity_score`. -/
def calcSeverityScore (event : Event) : ℚ :=
  let severity := event.severity.getD "medium"
  let confidence := event.confidence.getD 1
  let impact_score := event.impact_score.getD 0.5
  min 1 ((severityValue severity * 0.5 + impact_score * 0.5) * confidence)

/-- Model of `RiskScorer._calculate_criticality_score`. The Python `max(...)` runs
over a nonempty list of positive values, so folding `max` from 0 computes
the same maximum. -/
def calcCriticalityScore (suppliers : List Supplier) : ℚ :=
  if suppliers = [] then 0
  else
    let maxCriticality :=
      (suppliers.map (fun s => criticalityValue s.criticality)).foldl max 0
    let countBonus := min 0.2 ((suppliers.length : ℚ) * 0.05)
    min 1 (maxCriticality + countBonus)

/-- Model of `RiskScorer._calculate_financial_score`. -/
def calcFinancialScore (suppliers : List Supplier) : ℚ :=
  if suppliers = [] then 0
  else
    let total_spend := (suppliers.map Supplier.annual_spend).sum
    if total_spend ≥ 10000000 then 1
    else if total_spend ≥ 5000000 then 0.7
    else if total_spend ≥ 1000000 then 0.4
    else 0.2

/-- Model of `RiskScorer._determine_urgency`. -/
def determineUrgency (composite_score criticality_score : ℚ) : MitigationUrgency :=
  if composite_score ≥ 0.8 ∨ criticality_score ≥ 0.9 then .immediate
  else if composite_score ≥ 0.6 then .shortTerm
  else if composite_score ≥ 0.4 then .mediumTerm
  else .longTerm

/-- Model of `RiskScorer._estimate_financial_impact`. -/
def estimateFinancialImpact (suppliers : List Supplier) (risk_score : ℚ) : ℚ :=
  if suppliers = [] then 0
  else
    let total_spend := (suppliers.map Supplier.annual_spend).sum
    let weeks_affected := 1 + risk_score * 3
    let weekly_spend := total_spend / 52
    round2 (weekly_spend * weeks_affected)

/-- The `severity_delays` dict of `RiskScorer._estimate_delay_days`, with
its `.get(severity, 3)` default. -/
def severityDelays (s : String) : ℚ :=
  if s = "critical" then 14
  else if s = "high" then 7
  else if s = "medium" then 3
  else if s = "low" then 1
  else 3

/-- Model of `RiskScorer._estimate_delay_days`: `int(base_delay * (1 + risk_score))`. -/
def estimateDelayDays (event : Event) (risk_score : ℚ) : ℤ :=
  let severity := event.severity.getD "medium"
  let base_delay := severityDelays severity
  pyInt (base_delay * (1 + risk_score))

/-- The result record of `RiskScorer.calculate_risk_score`; the four
`component_scores` entries are flattened into fields. -/
structure RiskScoreResult where
  composite_score : ℚ
  risk_level : RiskLevel
  mitigation_urgency : MitigationUrgency
  severity_component : ℚ
  criticality_component : ℚ
  financial_component : ℚ
  geographic_component : ℚ
  estimated_financial_impact : ℚ
  estimated_delay_days : ℤ
deriving DecidableEq

/-- Model of `RiskScorer.calculate_risk_score` (engines/risk_scorer.py lines 53-112),
with the fixed weights 0.30 / 0.30 / 0.20 / 0.20 inlined. -/
def calculate_risk_score (event : Event) (affected_suppliers : List Supplier)
    (geographic_risk_factor : ℚ) : RiskScoreResult :=
  let severity_score := calcSeverityScore event
  let criticality_score := calcCriticalityScore affected_suppliers
  let financial_score := calcFinancialScore affected_suppliers
  let geo_score := geographic_risk_factor
  let composite_score :=
    0.30 * severity_score + 0.30 * criticality_score +
    0.20 * financial_score + 0.20 * geo_score
  { composite_score := round3 composite_score
    risk_level := RiskLevel.from_score composite_score
    mitigation_urgency := determineUrgency composite_score criticality_score
    severity_component := round3 severity_score
    criticality_component := round3 criticality_score
    financial_component := round3 financial_score
    geographic_component := round3 geo_score
    estimated_financial_impact := estimateFinancialImpact affected_suppliers composite_score
    estimated_delay_days := estimateDelayDays event composite_score }

/-! ### Geographic Correlator (engines/geo_correlator.py) -/

/-- A value of the heterogeneous result dict of `calculate_geographic_risk`:
a number (float or int) or a string. -/
inductive GVal
  | num (q : ℚ)
  | str (s : String)
deriving DecidableEq

/-- Model of `GeographicCorrelator._format_region`: truthy parts of
`[city, region, country]` joined with a comma, `"Unknown"` when all are
falsy. -/
def formatRegion (country region city : Option String) : String :=
  let parts := ([city, region, country].filterMap id).filter (fun p => p ≠ "")
  if parts = [] then "Unknown" else String.intercalate ", " parts

/-- Model of `GeographicCorrelator.calculate_geographic_risk` (lines 58-142), over
the correlator's supplier list. The result dict is modelled as the ordered
key/value list of the Python dict literals; the per-country distribution
dict is equivalently computed by filtering the supplier list on the exact
country string. -/
def calculate_geographic_risk (suppliers : List Supplier) (event : Event) :
    List (String × GVal) :=
  if strFalsy event.location.country then
    [("risk_factor", .num 0.3),
     ("affected_region", .str "Unknown"),
     ("concentration_risk", .str "unknown"),
     ("suppliers_in_region", .num 0),
     ("spend_at_risk", .num 0)]
  else
    let country := event.location.country.getD ""
    let inCountry := suppliers.filter (fun s => s.country = country)
    let suppliers_in_country : ℕ := inCountry.length
    let spend_in_country : ℚ := (inCountry.map Supplier.annual_spend).sum
    let total_suppliers : ℕ := suppliers.length
    let total_spend : ℚ := (suppliers.map Supplier.annual_spend).sum
    let concentration : ℚ :=
      if total_suppliers = 0 then 0 else (suppliers_in_country : ℚ) / (total_suppliers : ℚ)
    let spend_concentration : ℚ :=
      if total_spend = 0 then 0 else spend_in_country / total_spend
    let severity := event.severity.getD "medium"
    let multiplier : ℚ :=
      if severity = "critical" then 1.3
      else if severity = "high" then 1.15
      else if severity = "medium" then 1.0
      else if severity = "low" then 0.8
      else 1.0
    let risk_factor := min 1 ((concentration * 0.4 + spend_concentration * 0.6) * multiplier)
    let concentration_level :=
      if concentration ≥ 0.3 then "high"
      else if concentration ≥ 0.15 then "medium"
      else "low"
    [("risk_factor", .num (round3 risk_factor)),
     ("affected_region", .str (formatRegion event.location.country event.location.region event.location.city)),
     ("affected_country", .str country),
     ("concentration_risk", .str concentration_level),
     ("suppliers_in_region", .num suppliers_in_country),
     ("spend_at_risk", .num spend_in_country),
     ("supplier_concentration", .num (round1 (concentration * 100))),
     ("spend_concentration", .num (round1 (spend_concentration * 100)))]

/-! ### Impact Analyzer (engines/impact_analyzer.py) -/

/-- Decidable substring test over character lists: the loop of
`needle in hay` for Python strings. -/
def charsStartWith : List Char → List Char → Bool
  | [], _ => true
  | _ :: _, [] => false
  | a :: as, b :: bs => a == b && charsStartWith as bs

/-- Model of `needle in hay` for Python strings (substring containment). -/
def strHasSub (needle hay : String) : Bool :=
  go needle.toList hay.toList
where
  go (n : List Char) : List Char → Bool
    | [] => charsStartWith n []
    | h :: t => charsStartWith n (h :: t) || go n t

/-- Model of `SupplierImpactAnalyzer._check_geographic_match`, with the truthiness
guards `if city and ...` of the source. -/
def checkGeographicMatch (s : Supplier)
    (country region city : Option String) : Bool :=
  (!strFalsy city && s.is_in_city (city.getD ""))
  || (!strFalsy region && s.is_in_region (region.getD ""))
  || (!strFalsy country && s.is_in_country (country.getD ""))

/-- The `keyword_category_map` dict of
`SupplierImpactAnalyzer._check_category_match`, with `[]` for a missing
key. -/
def keywordCategoryMap (kw : String) : List String :=
  if kw = "port" then ["logistics", "freight", "shipping", "maritime"]
  else if kw = "shipping" then ["logistics", "freight", "maritime"]
  else if kw = "freight" then ["logistics", "shipping"]
  else if kw = "manufacturing" then ["components", "assembly"]
  else if kw = "semiconductor" then ["electronics", "chips"]
  else if kw = "energy" then ["petrochemicals", "raw materials"]
  else if kw = "cyclone" then ["port services", "logistics", "shipping"]
  else if kw = "flood" then ["manufacturing", "logistics"]
  else if kw = "earthquake" then ["manufacturing", "components"]
  else []

/-- Model of `SupplierImpactAnalyzer._check_category_match` (lines 104-147); the
early `return True`s of the source loops become `any` / `||`. -/
def checkCategoryMatch (s : Supplier) (event_keywords : List String) : Bool :=
  if event_keywords = [] ∨ s.categories = [] then false
  else
    let kws := event_keywords.map strLower
    let directOrPartial := s.categories.any (fun category =>
      let cl := strLower category
      kws.contains cl
      || kws.any (fun kw => strHasSub cl kw || strHasSub kw cl))
    let synonym := kws.any (fun kw =>
      (keywordCategoryMap kw).any (fun mc =>
        (s.categories.map strLower).contains mc))
    directOrPartial || synonym

/-- Model of `SupplierImpactAnalyzer.find_affected_suppliers` (lines 35-80): keep a
supplier iff it matches geographically or by category. -/
def find_affected_suppliers (suppliers : List Supplier) (event : Event) :
    List Supplier :=
  suppliers.filter (fun s =>
    checkGeographicMatch s event.location.country event.location.region event.location.city
    || checkCategoryMatch s event.keywords)

/-! ### Alert Generator (core/alert_generator.py) -/

/-- The three score thresholds of `AlertGenerator.__init__`. -/
structure AlertGen where
  critical_threshold : ℚ
  high_threshold : ℚ
  medium_threshold : ℚ
deriving DecidableEq

/-- The default thresholds 0.8 / 0.6 / 0.4. -/
def AlertGen.default : AlertGen :=
  { critical_threshold := 0.8, high_threshold := 0.6, medium_threshold := 0.4 }

/-- The alert fields the claims observe; the presentation-only text fields
(title, message, action_required) are pure string formatting and are not
modelled. -/
structure Alert where
  risk_id : String
  priority : AlertPriority
  channels : List AlertChannel
  recipients : List String
deriving DecidableEq

/-- The `_channel_map` of `AlertGenerator.__init__`. -/
def channelMap : AlertPriority → List AlertChannel
  | .P1 => [.dashboard, .email, .sms]
  | .P2 => [.dashboard, .email]
  | .P3 => [.dashboard, .email]
  | .P4 => [.dashboard]

/-- The `_recipient_map` of `AlertGenerator.__init__`. -/
def recipientMap : AlertPriority → List String
  | .P1 => ["exec-team", "supply-chain-vp", "risk-management"]
  | .P2 => ["supply-chain-director", "procurement-lead"]
  | .P3 => ["supply-chain-manager", "category-manager"]
  | .P4 => ["supply-chain-analyst"]

/-- Model of `AlertGenerator._determine_priority` (lines 206-229). -/
def determine_priority (g : AlertGen) (r : Risk) : Option AlertPriority :=
  if r.risk_level = RiskLevel.critical ∨ r.risk_score ≥ g.critical_threshold then
    some .P1
  else if r.risk_level = RiskLevel.high ∨ r.risk_score ≥ g.high_threshold then
    (if r.has_critical_suppliers then some .P1 else some .P2)
  else if r.risk_level = RiskLevel.medium ∨ r.risk_score ≥ g.medium_threshold then
    some .P3
  else if r.risk_level = RiskLevel.low then
    some .P4
  else
    none

/-- Model of `AlertGenerator.generate_alert` (lines 140-180): `none` when
`_determine_priority` yields `none`, otherwise an alert routed by the
channel and recipient maps. -/
def generate_alert (g : AlertGen) (r : Risk) : Option Alert :=
  match determine_priority g r with
  | none => none
  | some priority =>
      some { risk_id := r.risk_id
             priority := priority
             channels := channelMap priority
             recipients := recipientMap priority }

/-! ### Risk / Supplier dict serialization (models, `to_dict` / `from_dict`) -/

/-- The dict produced by `Supplier.to_dict`. -/
structure SupplierD where
  supplier_id : String
  name : String
  country : String
  city : Option String
  region : Option String
  latitude : Option ℚ
  longitude : Option ℚ
  criticality : String
  tier : String
  categories : List String
  lead_time_days : ℤ
  annual_spend : ℚ
deriving DecidableEq

/-- Model of `Supplier.to_dict`. -/
def Supplier.toDict (s : Supplier) : SupplierD :=
  { supplier_id := s.supplier_id
    name := s.name
    country := s.country
    city := s.city
    region := s.region
    latitude := s.latitude
    longitude := s.longitude
    criticality := s.criticality.value
    tier := s.tier.value
    categories := s.categories
    lead_time_days := s.lead_time_days
    annual_spend := s.annual_spend }

/-- Model of `Supplier.from_dict` followed by `Supplier.__init__`; `fresh` models
the `str(uuid.uuid4())` fallback taken when the stored id is falsy, and
`none` models the `ValueError` of an invalid enum value. -/
def Supplier.fromDict (fresh : String) (d : SupplierD) : Option Supplier :=
  match SupplierCriticality.ofValue d.criticality, SupplierTier.ofValue d.tier with
  | some criticality, some tier =>
      some { supplier_id := pyOrS d.supplier_id fresh
             name := d.name
             country := d.country
             city := d.city
             region := d.region
             latitude := d.latitude
             longitude := d.longitude
             criticality := criticality
             tier := tier
             categories := d.categories -- `categories or []` is the identity on lists
             lead_time_days := d.lead_time_days
             annual_spend := d.annual_spend }
  | _, _ => none

/-- The dict produced by `Risk.to_dict` (models/risk.py lines 136-156). -/
structure RiskD where
  risk_id : String
  source_event_id : String
  title : String
  description : String
  risk_score : ℚ
  risk_level : String
  risk_type : String
  affected_suppliers : List SupplierD
  affected_supplier_count : ℕ
  geographic_scope : Option String
  mitigation_urgency : String
  estimated_financial_impact : ℚ
  estimated_delay_days : ℤ
  confidence : ℚ
  has_critical_suppliers : Bool
  total_affected_spend : ℚ
  created_at : String
deriving DecidableEq

/-- Model of `Risk.to_dict`. -/
def Risk.toDict (r : Risk) : RiskD :=
  { risk_id := r.risk_id
    source_event_id := r.source_event_id
    title := r.title
    description := r.description
    risk_score := round3 r.risk_score
    risk_level := r.risk_level.value
    risk_type := r.risk_type.value
    affected_suppliers := r.affected_suppliers.map Supplier.toDict
    affected_supplier_count := r.affected_suppliers.length
    geographic_scope := r.geographic_scope
    mitigation_urgency := r.mitigation_urgency.value
    estimated_financial_impact := r.estimated_financial_impact
    estimated_delay_days := r.estimated_delay_days
    confidence := round3 r.confidence
    has_critical_suppliers := r.has_critical_suppliers
    total_affected_spend := r.total_affected_spend
    created_at := r.created_at }

/-- Model of `Risk.from_dict` (models/risk.py lines 158-182), ending in the
`Risk.__init__` call modelled by `mkRisk`. `fresh` models `uuid.uuid4()`
and `now` models `datetime.now()`; `datetime.fromisoformat` on a string
produced by `isoformat` is the identity in this string model. `none`
models the `ValueError` of an invalid enum value. -/
def Risk.fromDict (fresh now : String) (d : RiskD) : Option Risk := do
  let suppliers ← d.affected_suppliers.mapM (Supplier.fromDict fresh)
  let level ← RiskLevel.ofValue d.risk_level
  let rtype ← RiskType.ofValue d.risk_type
  let urgency ← MitigationUrgency.ofValue d.mitigation_urgency
  return mkRisk fresh now d.source_event_id d.title d.description
    d.risk_score level rtype (some suppliers) d.geographic_scope urgency
    d.estimated_financial_impact d.estimated_delay_days d.confidence
    (some d.risk_id)
    (if d.created_at = "" then none else some d.created_at)

/-! ### Concrete fixtures used by the counterexamples and witnesses -/

/-- An event with all defaulted fields and no location. -/
def evDefault : Event :=
  { severity := some "medium", confidence := some 1, impact_score := some 0.5
    location := { country := none, region := none, city := none }
    keywords := [] }

/-- The scenario event of the spec: severity "critical", confidence 0.9,
impact_score 0.8, located in China. -/
def evScenario : Event :=
  { severity := some "critical", confidence := some 0.9, impact_score := some 0.8
    location := { country := some "China", region := none, city := none }
    keywords := [] }

/-- A "high" severity event. -/
def evHigh : Event :=
  { severity := some "high", confidence := some 1, impact_score := some 0.5
    location := { country := none, region := none, city := none }
    keywords := [] }

/-- An event carrying only the keyword "earthquake". -/
def evEarthquake : Event :=
  { severity := none, confidence := none, impact_score := none
    location := { country := none, region := none, city := none }
    keywords := ["earthquake"] }

/-- The scenario supplier: CRITICAL criticality, $12,000,000 annual spend. -/
def supScenario : Supplier :=
  { supplier_id := "SUP-1", name := "Scenario Supplier", country := "China"
    city := none, region := none, latitude := none, longitude := none
    criticality := .critical, tier := .tier1, categories := []
    lead_time_days := 14, annual_spend := 12000000 }

/-- The "Mumbai Components Ltd" supplier of the simulated catalog
(models/supplier.py), whose categories include "manufacturing" and
"components". -/
def supMumbai : Supplier :=
  { supplier_id := "SUP-MUM", name := "Mumbai Components Ltd", country := "India"
    city := some "Mumbai", region := some "Maharashtra"
    latitude := some 18.95, longitude := some 72.95
    criticality := .medium, tier := .tier2
    categories := ["manufacturing", "components", "assembly"]
    lead_time_days := 28, annual_spend := 1500000 }

/-- A HIGH-level risk with score 0.65 and one CRITICAL-criticality affected
supplier, the escalation scenario of the spec. -/
def riskEscalation : Risk :=
  { risk_id := "RISK-1", source_event_id := "EV-1", title := "t"
    description := "d", risk_score := 0.65, risk_level := .high
    risk_type := .supply, affected_suppliers := [supScenario]
    geographic_scope := some "China", mitigation_urgency := .immediate
    estimated_financial_impact := 0, estimated_delay_days := 0
    confidence := 1, created_at := "2026-01-01T00:00:00" }

/-! ### Support lemmas -/

theorem roundHalfEven_intCast (k : ℤ) : roundHalfEven (k : ℚ) = k := by
  unfold roundHalfEven
  simp [Int.floor_intCast]

theorem roundHalfEven_ge_floor (q : ℚ) : ⌊q⌋ ≤ roundHalfEven q := by
  simp only [roundHalfEven]
  split_ifs <;> omega

theorem roundHalfEven_le_floor_add_one (q : ℚ) : roundHalfEven q ≤ ⌊q⌋ + 1 := by
  simp only [roundHalfEven]
  split_ifs <;> omega

theorem round3_nonneg (q : ℚ) (h : 0 ≤ q) : 0 ≤ round3 q := by
  unfold round3
  have h1 : (0 : ℤ) ≤ ⌊q * 1000⌋ := Int.floor_nonneg.mpr (by positivity)
  have h2 := roundHalfEven_ge_floor (q * 1000)
  have : (0 : ℤ) ≤ roundHalfEven (q * 1000) := le_trans h1 h2
  positivity

theorem round3_le_one (q : ℚ) (h : q ≤ 1) : round3 q ≤ 1 := by
  unfold round3
  rw [div_le_one (by norm_num)]
  rcases eq_or_lt_of_le h with h1 | h1
  · subst h1
    rw [show ((1 : ℚ) * 1000) = ((1000 : ℤ) : ℚ) by norm_num, roundHalfEven_intCast]
    norm_num
  · have hf : ⌊q * 1000⌋ + 1 ≤ 1000 := by
      have : ⌊q * 1000⌋ < 1000 := by
        rw [Int.floor_lt]
        push_cast
        nlinarith
      omega
    have := roundHalfEven_le_floor_add_one (q * 1000)
    have hle : roundHalfEven (q * 1000) ≤ 1000 := le_trans this hf
    exact_mod_cast hle

theorem round3_eq_self_iff (q : ℚ) : round3 q = q ↔ ∃ k : ℤ, q = (k : ℚ) / 1000 := by
  constructor
  · intro h
    exact ⟨roundHalfEven (q * 1000), h.symm⟩
  · rintro ⟨k, rfl⟩
    unfold round3
    have : (k : ℚ) / 1000 * 1000 = (k : ℚ) := by field_simp
    rw [this, roundHalfEven_intCast]

theorem clamp01_eq_self (q : ℚ) (h0 : 0 ≤ q) (h1 : q ≤ 1) : clamp01 q = q := by
  unfold clamp01
  rw [max_eq_left h0, min_eq_left h1]

/-! ### Claim theorems -/

/-- C1 counterexample: calling `calculate_risk_score` with an empty
affected-suppliers list yields financial-exposure component 0, not the
claimed floor value 0.2. -/
theorem claim_C1_counterexample :
    (calculate_risk_score evDefault [] 0.5).financial_component ≠ 0.2 ∧
    (calculate_risk_score evDefault [] 0.5).financial_component = 0 := by
  have h : (calculate_risk_score evDefault [] 0.5).financial_component = 0 := by
    simp [calculate_risk_score, calcFinancialScore, round3, roundHalfEven]
  refine ⟨?_, h⟩
  rw [h]
  norm_num

/-- C1 (amended): for every call of `calculate_risk_score` with an empty
affected-suppliers list, both the supplier-criticality component score and
the financial-exposure component score are 0. -/
theorem claim_C1 (event : Event) (geographic_risk_factor : ℚ) :
    (calculate_risk_score event [] geographic_risk_factor).criticality_component = 0 ∧
    (calculate_risk_score event [] geographic_risk_factor).financial_component = 0 := by
  constructor <;>
    simp [calculate_risk_score, calcCriticalityScore, calcFinancialScore, round3, roundHalfEven]

/-- C2 counterexample: in the spec scenario (critical severity, confidence
0.9, impact 0.8, one CRITICAL supplier with $12M spend, geographic factor
0.5) the composite score is not 0.773 and the risk level is not HIGH. -/
theorem claim_C2_counterexample :
    (calculate_risk_score evScenario [supScenario] 0.5).composite_score ≠ 0.773 ∧
    (calculate_risk_score evScenario [supScenario] 0.5).risk_level ≠ RiskLevel.high := by
  constructor
  · have h : (calculate_risk_score evScenario [supScenario] 0.5).composite_score = 0.843 := by
      simp [calculate_risk_score, calcSeverityScore, calcCriticalityScore, calcFinancialScore,
        severityValue, criticalityValue, evScenario, supScenario, round3, roundHalfEven]
      norm_num
    rw [h]
    norm_num
  · have h : (calculate_risk_score evScenario [supScenario] 0.5).risk_level = RiskLevel.critical := by
      simp [calculate_risk_score, calcSeverityScore, calcCriticalityScore, calcFinancialScore,
        severityValue, criticalityValue, evScenario, supScenario, RiskLevel.from_score]
      norm_num
    rw [h]
    simp

/-- C2 (amended): the spec scenario yields severity_score 0.81,
criticality_score 1.0, financial_score 1.0, composite_score 0.843
(= 0.3×0.81 + 0.3×1.0 + 0.2×1.0 + 0.2×0.5), risk_level CRITICAL and
mitigation_urgency IMMEDIATE. -/
theorem claim_C2 :
    (calculate_risk_score evScenario [supScenario] 0.5).severity_component = 0.81 ∧
    (calculate_risk_score evScenario [supScenario] 0.5).criticality_component = 1 ∧
    (calculate_risk_score evScenario [supScenario] 0.5).financial_component = 1 ∧
    (calculate_risk_score evScenario [supScenario] 0.5).composite_score = 0.843 ∧
    (calculate_risk_score evScenario [supScenario] 0.5).risk_level = RiskLevel.critical ∧
    (calculate_risk_score evScenario [supScenario] 0.5).mitigation_urgency = MitigationUrgency.immediate := by
  refine ⟨?_, ?_, ?_, ?_, ?_, ?_⟩ <;>
    simp [calculate_risk_score, calcSeverityScore, calcCriticalityScore, calcFinancialScore,
      severityValue, criticalityValue, evScenario, supScenario, round3, roundHalfEven,
      RiskLevel.from_score, determineUrgency] <;>
    norm_num

/-- The severity→base-delay table as the spec words it (CRITICAL=14,
HIGH=7, MEDIUM=3, LOW=1 days; any other severity falls back to the
MEDIUM value). -/
def specBaseDelay (severity : String) : ℚ :=
  if severity = "critical" then 14
  else if severity = "high" then 7
  else if severity = "medium" then 3
  else if severity = "low" then 1
  else 3

/-- C3 counterexample: at a "high"-severity event and composite score 0.8
the code computes 12 delay days (truncation of 7×1.8 = 12.6) while
rounding to the nearest integer would give 13. -/
theorem claim_C3_counterexample :
    estimateDelayDays evHigh 0.8 ≠ round ((7 : ℚ) * (1 + 0.8)) ∧
    estimateDelayDays evHigh 0.8 = 12 ∧
    round ((7 : ℚ) * (1 + 0.8)) = 13 := by
  have h1 : estimateDelayDays evHigh 0.8 = 12 := by
    simp [estimateDelayDays, severityDelays, evHigh, pyInt]
    norm_num
  have h2 : round ((7 : ℚ) * (1 + 0.8)) = 13 := by norm_num [round_eq]
  exact ⟨by rw [h1, h2]; norm_num, h1, h2⟩

/-- C3 (amended): for every event and nonnegative composite score,
estimated_delay_days equals the floor (truncation toward zero, not
rounding to the nearest integer) of severity_base_delay × (1 +
composite_score), with base delays CRITICAL=14, HIGH=7, MEDIUM=3, LOW=1
(and the MEDIUM value for an unknown or missing severity). -/
theorem claim_C3 (event : Event) (risk_score : ℚ) (h : 0 ≤ risk_score) :
    estimateDelayDays event risk_score =
      ⌊specBaseDelay (event.severity.getD "medium") * (1 + risk_score)⌋ := by
  have hbase : specBaseDelay (event.severity.getD "medium") =
      severityDelays (event.severity.getD "medium") := rfl
  have hpos : (0 : ℚ) ≤ severityDelays (event.severity.getD "medium") := by
    unfold severityDelays
    split_ifs <;> norm_num
  unfold estimateDelayDays pyInt
  rw [hbase, if_pos (mul_nonneg hpos (by linarith))]

/-- C3 witness: the amended statement instantiated at the concrete
"high"-severity event and composite score 0.8. -/
theorem claim_C3_witness :
    (0 : ℚ) ≤ 0.8 ∧
    estimateDelayDays evHigh 0.8 =
      ⌊specBaseDelay (evHigh.severity.getD "medium") * (1 + 0.8)⌋ :=
  ⟨by norm_num, claim_C3 evHigh 0.8 (by norm_num)⟩

/-- C4: `RiskLevel.from_score` is CRITICAL iff s ≥ 0.8, HIGH iff
0.6 ≤ s < 0.8, MEDIUM iff 0.4 ≤ s < 0.6 and LOW iff s < 0.4; each
boundary belongs to the higher tier. -/
theorem claim_C4 (s : ℚ) :
    (RiskLevel.from_score s = RiskLevel.critical ↔ 0.8 ≤ s) ∧
    (RiskLevel.from_score s = RiskLevel.high ↔ 0.6 ≤ s ∧ s < 0.8) ∧
    (RiskLevel.from_score s = RiskLevel.medium ↔ 0.4 ≤ s ∧ s < 0.6) ∧
    (RiskLevel.from_score s = RiskLevel.low ↔ s < 0.4) := by
  unfold RiskLevel.from_score
  split_ifs with h1 h2 h3 <;>
    simp_all [ge_iff_le, not_le] <;>
    first
      | linarith
      | (intro h ; linarith)
      | (rintro ⟨ha, hb⟩ ; linarith)
      | (constructor <;> first
          | linarith
          | (intro h ; linarith)
          | (rintro ⟨ha, hb⟩ ; linarith))

/-- The priority rule exactly as the claim words it (first matching rule in
order, with the critical-supplier escalation in the second rule). -/
def specAlertPriority (r : Risk) : AlertPriority :=
  if r.risk_level = RiskLevel.critical ∨ r.risk_score ≥ 0.8 then .P1
  else if r.risk_level = RiskLevel.high ∨ r.risk_score ≥ 0.6 then
    (if r.has_critical_suppliers then .P1 else .P2)
  else if r.risk_level = RiskLevel.medium ∨ r.risk_score ≥ 0.4 then .P3
  else .P4

/-- C5: with the default thresholds, `_determine_priority` computes exactly
the claim's first-match rule for every risk; in particular the HIGH-level
risk with score 0.65 and one CRITICAL-criticality affected supplier gets a
P1 alert, not P2. -/
theorem claim_C5 :
    (∀ r : Risk, determine_priority AlertGen.default r = some (specAlertPriority r)) ∧
    (generate_alert AlertGen.default riskEscalation).map Alert.priority = some AlertPriority.P1 := by
  constructor
  · intro r
    unfold determine_priority specAlertPriority AlertGen.default
    split_ifs <;> try rfl
    cases hl : r.risk_level <;> simp_all
  · simp [generate_alert, determine_priority, riskEscalation, AlertGen.default,
      Risk.has_critical_suppliers, supScenario]

/-- C6: `generate_alert` never returns null: whatever the thresholds, every
risk (its level being one of LOW, MEDIUM, HIGH, CRITICAL) produces an
alert, at minimum a P4 one. -/
theorem claim_C6 (g : AlertGen) (r : Risk) : (generate_alert g r).isSome = true := by
  have h : ∃ p, determine_priority g r = some p := by
    unfold determine_priority
    split_ifs <;> try exact ⟨_, rfl⟩
    cases hl : r.risk_level <;> simp_all
  obtain ⟨p, hp⟩ := h
  unfold generate_alert
  rw [hp]
  rfl

/-- The seven result keys of the geographic-risk contract. -/
def geoContractKeys : List String :=
  ["risk_factor", "affected_region", "concentration_risk", "suppliers_in_region",
   "spend_at_risk", "supplier_concentration", "spend_concentration"]

/-- C7 counterexample: for an event without a country the result of
`calculate_geographic_risk` does not contain the key
"supplier_concentration", so it does not contain all seven contract keys. -/
theorem claim_C7_counterexample :
    "supplier_concentration" ∉ (calculate_geographic_risk [supScenario] evEarthquake).map Prod.fst := by
  simp [calculate_geographic_risk, evEarthquake, strFalsy]

/-- C7 (amended): for every event whose location has no (truthy) country,
`calculate_geographic_risk` returns exactly the five-entry default with
risk_factor 0.3 and affected_region "Unknown" — the keys
supplier_concentration and spend_concentration are absent from this
branch; for every event with a country the result contains all seven
contract keys. -/
theorem claim_C7 (suppliers : List Supplier) (event : Event) :
    (strFalsy event.location.country = true →
      calculate_geographic_risk suppliers event =
        [("risk_factor", GVal.num 0.3), ("affected_region", GVal.str "Unknown"),
         ("concentration_risk", GVal.str "unknown"), ("suppliers_in_region", GVal.num 0),
         ("spend_at_risk", GVal.num 0)]) ∧
    (strFalsy event.location.country = false →
      ∀ k ∈ geoContractKeys, k ∈ (calculate_geographic_risk suppliers event).map Prod.fst) := by
  constructor
  · intro h
    unfold calculate_geographic_risk
    rw [if_pos h]
  · intro h k hk
    unfold calculate_geographic_risk
    rw [if_neg (by simp [h])]
    fin_cases hk <;> simp

/-- C7 witness: the no-country branch evaluated at the keyword-only event,
and a contract key found in the result for the China-located event. -/
theorem claim_C7_witness :
    (calculate_geographic_risk [supScenario] evEarthquake =
      [("risk_factor", GVal.num 0.3), ("affected_region", GVal.str "Unknown"),
       ("concentration_risk", GVal.str "unknown"), ("suppliers_in_region", GVal.num 0),
       ("spend_at_risk", GVal.num 0)]) ∧
    "supplier_concentration" ∈ (calculate_geographic_risk [supScenario] evScenario).map Prod.fst :=
  ⟨(claim_C7 [supScenario] evEarthquake).1 rfl,
   (claim_C7 [supScenario] evScenario).2 (by decide) "supplier_concentration" (by simp [geoContractKeys])⟩

/-- C8: every supplier whose categories include "manufacturing" or
"components" (case-insensitively) is found affected by an event whose
keywords are exactly ["earthquake"], through the keyword→category synonym
table. -/
theorem claim_C8 (suppliers : List Supplier) (event : Event) (s : Supplier)
    (hkw : event.keywords = ["earthquake"])
    (hmem : s ∈ suppliers)
    (hcat : ∃ c ∈ s.categories, strLower c = "manufacturing" ∨ strLower c = "components") :
    s ∈ find_affected_suppliers suppliers event := by
  unfold find_affected_suppliers
  rw [List.mem_filter]
  refine ⟨hmem, ?_⟩
  rw [Bool.or_eq_true]
  right
  rw [hkw]
  unfold checkCategoryMatch
  obtain ⟨c, hc, hlow⟩ := hcat
  rw [if_neg]
  · rw [Bool.or_eq_true]
    right
    simp only [List.any_eq_true, List.map, keywordCategoryMap]
    refine ⟨strLower "earthquake", by simp, ?_⟩
    simp only [strLower, List.contains, keywordCategoryMap]
    simp_all [List.elem_iff, List.mem_map]
    rcases hlow with hlow | hlow
    · exact Or.inl ⟨c, hc, hlow⟩
    · exact Or.inr ⟨c, hc, hlow⟩
  · rintro (h | h)
    · simp at h
    · rw [h] at hc
      simp at hc

/-- C8 witness: the Mumbai Components supplier (categories include
"manufacturing" and "components") is matched by the earthquake event. -/
theorem claim_C8_witness :
    evEarthquake.keywords = ["earthquake"] ∧
    supMumbai ∈ [supMumbai] ∧
    (∃ c ∈ supMumbai.categories,
      strLower c = "manufacturing" ∨ strLower c = "components") ∧
    supMumbai ∈ find_affected_suppliers [supMumbai] evEarthquake :=
  ⟨rfl, by simp, ⟨"manufacturing", by simp [supMumbai], Or.inl rfl⟩,
   claim_C8 [supMumbai] evEarthquake supMumbai rfl (by simp)
     ⟨"manufacturing", by simp [supMumbai], Or.inl rfl⟩⟩

/-- C9: every Risk built by the constructor has risk_score and confidence
clamped into [0,1]: the stored fields equal min(max(·,0),1) of the
arguments and therefore always lie in [0,1]. -/
theorem claim_C9 (fresh now source_event_id title description : String)
    (risk_score : ℚ) (risk_level : RiskLevel) (risk_type : RiskType)
    (affected_suppliers : Option (List Supplier)) (geographic_scope : Option String)
    (mitigation_urgency : MitigationUrgency) (estimated_financial_impact : ℚ)
    (estimated_delay_days : ℤ) (confidence : ℚ) (risk_id : Option String)
    (created_at : Option String) :
    let r := mkRisk fresh now source_event_id title description risk_score risk_level
      risk_type affected_suppliers geographic_scope mitigation_urgency
      estimated_financial_impact estimated_delay_days confidence risk_id created_at
    r.risk_score = min (max risk_score 0) 1 ∧
    0 ≤ r.risk_score ∧ r.risk_score ≤ 1 ∧
    r.confidence = min (max confidence 0) 1 ∧
    0 ≤ r.confidence ∧ r.confidence ≤ 1 := by
  refine ⟨rfl, ?_, ?_, rfl, ?_, ?_⟩ <;> simp [mkRisk, clamp01]

/-! ### Round-trip lemmas for C10 -/

theorem supplierCriticality_ofValue_roundtrip (c : SupplierCriticality) :
    SupplierCriticality.ofValue c.value = some c := by
  cases c <;> rfl

theorem supplierTier_ofValue_roundtrip (t : SupplierTier) :
    SupplierTier.ofValue t.value = some t := by
  cases t <;> rfl

theorem riskLevel_ofValue_roundtrip (l : RiskLevel) :
    RiskLevel.ofValue l.value = some l := by
  cases l <;> rfl

theorem riskType_ofValue_roundtrip (t : RiskType) :
    RiskType.ofValue t.value = some t := by
  cases t <;> rfl

theorem mitigationUrgency_ofValue_roundtrip (u : MitigationUrgency) :
    MitigationUrgency.ofValue u.value = some u := by
  cases u <;> rfl

theorem Supplier.fromDict_toDict (fresh : String) (s : Supplier)
    (h : s.supplier_id ≠ "") :
    Supplier.fromDict fresh s.toDict = some s := by
  unfold Supplier.fromDict Supplier.toDict
  rw [supplierCriticality_ofValue_roundtrip, supplierTier_ofValue_roundtrip]
  simp [pyOrS, h]

theorem mapM_supplier_roundtrip (fresh : String) (l : List Supplier)
    (h : ∀ s ∈ l, s.supplier_id ≠ "") :
    (l.map Supplier.toDict).mapM (Supplier.fromDict fresh) = some l := by
  induction l with
  | nil => rfl
  | cons a t ih =>
      simp only [List.map_cons, List.mapM_cons]
      rw [Supplier.fromDict_toDict fresh a (h a (by simp))]
      rw [ih (fun s hs => h s (by simp [hs]))]
      rfl

/-- C10: `from_dict ∘ to_dict` succeeds on every constructed Risk and agrees
with the original on all listed fields and on the supplier ids; the
round-tripped risk_score and confidence are the originals rounded to three
decimals, and the round trip is the identity on risk_score exactly when the
original has at most three decimal places. -/
theorem claim_C10 (r : Risk) (fresh now : String)
    (h0 : 0 ≤ r.risk_score) (h1 : r.risk_score ≤ 1)
    (h2 : 0 ≤ r.confidence) (h3 : r.confidence ≤ 1)
    (hid : r.risk_id ≠ "")
    (hsup : ∀ s ∈ r.affected_suppliers, s.supplier_id ≠ "") :
    ∃ r2 : Risk, Risk.fromDict fresh now (Risk.toDict r) = some r2 ∧
      r2.risk_id = r.risk_id ∧
      r2.source_event_id = r.source_event_id ∧
      r2.title = r.title ∧
      r2.description = r.description ∧
      r2.risk_level = r.risk_level ∧
      r2.risk_type = r.risk_type ∧
      r2.mitigation_urgency = r.mitigation_urgency ∧
      r2.geographic_scope = r.geographic_scope ∧
      r2.estimated_financial_impact = r.estimated_financial_impact ∧
      r2.estimated_delay_days = r.estimated_delay_days ∧
      r2.affected_suppliers.map Supplier.supplier_id
        = r.affected_suppliers.map Supplier.supplier_id ∧
      r2.risk_score = round3 r.risk_score ∧
      r2.confidence = round3 r.confidence ∧
      (r2.risk_score = r.risk_score ↔ ∃ k : ℤ, r.risk_score = (k : ℚ) / 1000) := by
  have hm := mapM_supplier_roundtrip fresh r.affected_suppliers hsup
  have heq : Risk.fromDict fresh now (Risk.toDict r) =
      some (mkRisk fresh now r.source_event_id r.title r.description
        (round3 r.risk_score) r.risk_level r.risk_type
        (some r.affected_suppliers) r.geographic_scope r.mitigation_urgency
        r.estimated_financial_impact r.estimated_delay_days
        (round3 r.confidence) (some r.risk_id)
        (if r.created_at = "" then none else some r.created_at)) := by
    unfold Risk.fromDict Risk.toDict
    simp only [hm, riskLevel_ofValue_roundtrip, riskType_ofValue_roundtrip,
      mitigationUrgency_ofValue_roundtrip, Option.bind_eq_bind, Option.some_bind]
    rfl
  have hsc : clamp01 (round3 r.risk_score) = round3 r.risk_score :=
    clamp01_eq_self _ (round3_nonneg _ h0) (round3_le_one _ h1)
  have hcc : clamp01 (round3 r.confidence) = round3 r.confidence :=
    clamp01_eq_self _ (round3_nonneg _ h2) (round3_le_one _ h3)
  refine ⟨_, heq, ?_, rfl, rfl, rfl, rfl, rfl, rfl, rfl, rfl, rfl, rfl, ?_, ?_, ?_⟩
  · simp [mkRisk, pyOrOpt, pyOrS, hid]
  · simp [mkRisk, hsc]
  · simp [mkRisk, hcc]
  · simp only [mkRisk]
    rw [hsc]
    exact round3_eq_self_iff r.risk_score

/-- C10 witness: the round trip applied to the concrete escalation-scenario
risk. -/
theorem claim_C10_witness :
    riskEscalation.risk_id ≠ "" ∧
    (0 : ℚ) ≤ riskEscalation.risk_score ∧ riskEscalation.risk_score ≤ 1 ∧
    (Risk.fromDict "550e8400-e29b-41d4-a716-446655440000" "2026-02-02T00:00:00"
      (Risk.toDict riskEscalation)).isSome = true := by
  have h := claim_C10 riskEscalation
    "550e8400-e29b-41d4-a716-446655440000" "2026-02-02T00:00:00"
    (by norm_num [riskEscalation]) (by norm_num [riskEscalation])
    (by norm_num [riskEscalation]) (by norm_num [riskEscalation])
    (by simp [riskEscalation]) (by simp [riskEscalation, supScenario])
  obtain ⟨r2, heq, hrest⟩ := h
  refine ⟨by simp [riskEscalation], by norm_num [riskEscalation],
    by norm_num [riskEscalation], ?_⟩
  rw [heq]
  rfl

end SupplyChain
